import Mathlib

/-!
Shallow embedding of the BACnet field-device controller's application-service
layer (duplicate suppression, message routing, discovery sweep, COV
subscription engine), translated from the Python sources under `bacnet/`.
Machine integers and timestamps are modelled as `Int`/`Nat`; Python
exceptions are modelled with `Except`; the mutable tables are threaded
explicitly.
-/

namespace Bacnet

/-- Python exceptions that the embedded code can raise. -/
inductive PyError where
  | attributeError (name : String)
  | typeError
  | valueError
  deriving DecidableEq, Repr

/-- Generic association-list lookup with default (`dict.get(k, dflt)`). -/
def assocGetD [DecidableEq κ] (l : List (κ × α)) (k : κ) (dflt : α) : α :=
  ((l.find? (fun e => e.1 = k)).map (·.2)).getD dflt

/-- `dict[k] = v`: replace in place when the key exists (Python dicts keep
insertion order), append otherwise. -/
def assocSet [DecidableEq κ] (l : List (κ × α)) (k : κ) (v : α) : List (κ × α) :=
  if l.any (fun e => e.1 = k) then
    l.map (fun e => if e.1 = k then (k, v) else e)
  else l ++ [(k, v)]

/-- `del dict[k]`. -/
def assocDel [DecidableEq κ] (l : List (κ × α)) (k : κ) : List (κ × α) :=
  l.filter (fun e => ¬ e.1 = k)

/-! ### `RingDict` (`bacnet/object/primitivedata.py`)

`RingDict(OrderedDict)` keeps `__size` (capacity) and `__pos` (a counter that
is incremented on every insert of a fresh key and decremented by
`__delitem__` of a present key).  Entries are kept in insertion order, and
`OrderedDict.__setitem__` on an existing key updates the value in place
without moving the key. -/

structure RingDict (κ α : Type) where
  size : Nat
  pos : Nat
  entries : List (κ × α)
  deriving Repr

namespace RingDict

/-- `RingDict(size)`: fresh instance. -/
def empty (κ α : Type) (size : Nat) : RingDict κ α := ⟨size, 0, []⟩

/-- `key in self` on the underlying ordered dictionary. -/
def contains [DecidableEq κ] (d : RingDict κ α) (k : κ) : Bool :=
  d.entries.any (fun e => e.1 = k)

/-- `self[key]`, as an option. -/
def get? [DecidableEq κ] (d : RingDict κ α) (k : κ) : Option α :=
  (d.entries.find? (fun e => e.1 = k)).map (·.2)

/-- `OrderedDict.__setitem__` on an existing key: value replaced in place,
insertion order unchanged. -/
def updateExisting [DecidableEq κ] (l : List (κ × α)) (k : κ) (v : α) : List (κ × α) :=
  l.map (fun e => if e.1 = k then (k, v) else e)

/-- `RingDict.__setitem__`.  For a fresh key with `__pos >= __size` the
source executes `self.__delattr__(self.__root[0][-1])`: inside class
`RingDict` the expression `self.__root` is name-mangled to
`self._RingDict__root`, an attribute that only `OrderedDict` (as
`_OrderedDict__root`) defines, so the overflow branch raises
`AttributeError` before anything is evicted or inserted. -/
def setItem [DecidableEq κ] (d : RingDict κ α) (k : κ) (v : α) :
    Except PyError (RingDict κ α) :=
  if d.contains k then
    .ok { d with entries := updateExisting d.entries k v }
  else if d.size ≤ d.pos then
    .error (.attributeError "_RingDict__root")
  else
    .ok { d with pos := d.pos + 1, entries := d.entries ++ [(k, v)] }

/-- `RingDict.__delitem__`. -/
def delItem [DecidableEq κ] (d : RingDict κ α) (k : κ) : RingDict κ α :=
  if d.contains k then
    { d with pos := d.pos - 1, entries := d.entries.filter (fun e => ¬ e.1 = k) }
  else
    { d with entries := d.entries.filter (fun e => ¬ e.1 = k) }

/-- Insert a list of key/value pairs left to right, propagating the first
exception. -/
def insertAll [DecidableEq κ] (d : RingDict κ α) :
    List (κ × α) → Except PyError (RingDict κ α)
  | [] => .ok d
  | (k, v) :: rest =>
    match d.setItem k v with
    | .ok d' => insertAll d' rest
    | .error e => .error e

end RingDict

/-! ### `lock_subscriptions` (`bacnet/app/handler/__init__.py`)

The decorator wraps every mutating access to the COV subscription table.
With `block=False` the generated `inner` performs non-blocking acquisition
attempts; its body begins with `tries = 0` and `del kwargs['tries']`, so the
`tries` keyword passed by the recursive call is discarded before it is ever
read, and the guard `if tries > retries: return None` compares the constant
zero against `retries`. -/

/-- Default `retries` parameter of `lock_subscriptions`. -/
def lockRetries : Nat := 3

/-- Result of a chain of calls of `inner` (the `block=False` case). -/
inductive LockOutcome where
  | acquired (attempt : Nat)
  | busy
  | runsForever
  deriving DecidableEq, Repr

/-- One call of `inner`: set `tries = 0`, delete the `tries` keyword without
reading it, give up with `None` when `tries > retries`, otherwise try the
non-blocking `lock.acquire`; on failure sleep and recurse with
`tries=tries+1`.  `acquire n` says whether the n-th acquisition attempt
succeeds; `fuel` bounds how far we unfold the recursion (the Python source
has no such bound). -/
def lockInner (acquire : Nat → Bool) : Nat → Nat → Option Nat → LockOutcome
  | 0, attempt, _triesKwarg =>
    let tries := 0
    if lockRetries < tries then .busy
    else if acquire attempt then .acquired attempt
    else .runsForever
  | fuel + 1, attempt, _triesKwarg =>
    let tries := 0
    if lockRetries < tries then .busy
    else if acquire attempt then .acquired attempt
    else lockInner acquire fuel (attempt + 1) (some (tries + 1))

/-! ### Discovery sweep (`BasicApplication.update_devices`,
`bacnet/app/basic.py`) -/

/-- `max_id = 2 ** 22 - 1`. -/
def maxId : Nat := 2 ^ 22 - 1

/-- `count = 4096`: the Who-Is window size. -/
def whoIsWindow : Nat := 4096

/-- A `known_devices` entry `{'id': ..., 'last_seen': ...}`; either key may
be absent. -/
structure DeviceEntry where
  id : Option Nat
  last_seen : Option Int
  deriving DecidableEq, Repr

/-- The wrap-around sweep body for one entry: delete it when it was last
seen more than 5400 seconds ago; refresh the stamp when it is missing or in
the future (reset system clock); otherwise keep it.  `none` means the entry
is removed from `known_devices`. -/
def sweepDevice (now : Int) (d : DeviceEntry) : Option DeviceEntry :=
  match d.last_seen with
  | some t =>
    if 5400 < now - t then none
    else if now < t then some { d with last_seen := some now }
    else some d
  | none => some { d with last_seen := some now }

/-- The sweep over the whole `known_devices` mapping. -/
def sweepKnownDevices (now : Int) (m : List (String × DeviceEntry)) :
    List (String × DeviceEntry) :=
  m.filterMap (fun p => (sweepDevice now p.2).map (fun d => (p.1, d)))

/-- Offset/loop state of the `update_devices` loop. -/
structure DiscoveryState where
  offset : Nat
  i : Nat
  known : List (String × DeviceEntry)
  deriving DecidableEq, Repr

/-- One iteration's tail, after the Who-Is for the current window has been
queued: `offset += count; i += 1`, and when the offset passes `max_id` it
wraps to 0, the loop variable resets and the known-device sweep runs. -/
def updateDevicesStep (now : Int) (st : DiscoveryState) : DiscoveryState :=
  let offset := st.offset + whoIsWindow
  if maxId < offset then
    { offset := 0, i := 0, known := sweepKnownDevices now st.known }
  else
    { offset := offset, i := st.i + 1, known := st.known }

/-! ### Message router and duplicate suppression
(`BasicApplication.check_queue` and `check_indication_queue`,
`bacnet/app/basic.py`)

An address is either a real network address (no `addrIP` attribute or
`addrIP != 0`), identified by its canonical string form, or a node-local
endpoint (`addrIP == 0`, endpoint number in `addrTuple[1]`). -/

inductive Addr where
  | net (s : String)
  | localEp (endpoint : Nat)
  deriving DecidableEq, Repr

/-- `str(address)`. -/
def Addr.str : Addr → String
  | .net s => s
  | .localEp n => "local:" ++ toString n

/-- `str(apdu.pduSource)` where the source may be `None`. -/
def srcStr : Option Addr → String
  | none => "None"
  | some a => a.str

/-- The APDU fields the router consumes: source, destination,
`apduService`, `apduInvokeID` (absent on unconfirmed exchanges), whether
the message is one of the response PDU classes (`AbortPDU`, `RejectPDU`,
`ErrorPDU`, `ComplexAckPDU`, `SimpleAckPDU`), and whether it is one of the
discovery requests (`WhoIsRequest`, `IAmRequest`, `WhoHasRequest`,
`IHaveRequest`). -/
structure Apdu where
  source : Option Addr
  destination : Addr
  service : Nat
  invokeID : Option Nat
  isResponse : Bool
  isDiscovery : Bool
  deriving DecidableEq, Repr

/-- Dedup key: `(peer address as string, direction flag, service, invoke id)`. -/
abbrev MessageId := String × Bool × Nat × Option Nat

/-- The application state the two worker loops share: the two dedup ring
dictionaries (capacity 500 each), the state machine's `nextInvokeID`
(owned by the external `bacpypes` stack; the loop bodies only read it) and
the node's own network address in canonical string form
(`self.localAddress.addrAddr`). -/
structure AppState where
  request_dict : RingDict MessageId (Apdu × Int)
  response_dict : RingDict MessageId (Apdu × Int)
  nextInvokeID : Nat
  localAddress : String
  deriving Repr

/-- A fresh application state: empty dedup caches of capacity 500
(`self.request_dict = RingDict(500)`, `self.response_dict = RingDict(500)`). -/
def freshAppState (nid : Nat) (la : String) : AppState :=
  { request_dict := RingDict.empty MessageId (Apdu × Int) 500,
    response_dict := RingDict.empty MessageId (Apdu × Int) 500,
    nextInvokeID := nid, localAddress := la }

/-- `apdu.pduSource is None or
apdu.pduSource.addrAddr == self.localAddress.addrAddr or
(hasattr(apdu.pduSource, 'addrIP') and apdu.pduSource.addrIP == 0)`. -/
def selfOriginated (localAddress : String) : Option Addr → Bool
  | none => true
  | some (.net s) => s = localAddress
  | some (.localEp _) => true

/-- Observable actions of one loop body: hand-off to the transport
(`self.request` / `self.response`), a `put` on one of the consumer queues,
a `put` on the indication queue, a `do_indication` handler dispatch, or the
unroutable-destination log line. -/
inductive Effect where
  | transmitRequest (a : Apdu)
  | transmitResponse (a : Apdu)
  | putConfig (a : Apdu)
  | putConsole (a : Apdu)
  | putWebgui (a : Apdu)
  | putIndicationQueue (a : Apdu)
  | invokeHandler (a : Apdu)
  | logUnknownDestination (a : Apdu)
  deriving DecidableEq, Repr

/-- `message_id[3] is not None and message_id in d and
abs(d[message_id][1] - time.time()) < 15`. -/
def isDuplicate (d : RingDict MessageId (Apdu × Int)) (mid : MessageId)
    (now : Int) : Bool :=
  mid.2.2.2.isSome &&
    match d.get? mid with
    | some (_, t) => |t - now| < 15
    | none => false

/-- The internal broadcast fan-out (“send to processes”): one `put` per
consumer queue.  The config/console/webgui channels are taken as present
(each `hasattr(..., 'put')` guard holds). -/
def internalBroadcast (a : Apdu) : List Effect :=
  [.putConfig a, .putConsole a, .putWebgui a]

/-- `(self.smap.nextInvokeID + 255) % 256`: the invoke-id slot outbound
dedup keys are built from (never `None`). -/
def outboundInvokeSlot (st : AppState) : Nat := (st.nextInvokeID + 255) % 256

/-- The outbound dedup key `check_queue` builds. -/
def outboundMessageId (st : AppState) (a : Apdu) : MessageId :=
  (a.destination.str, false, a.service, some (outboundInvokeSlot st))

/-- One iteration of the `check_queue` loop body on a dequeued APDU.
For a local destination the message is dispatched to the matching consumer.
For a network destination of a self-originated message the transport
hand-off (`self.response` / `self.request`) runs first; the duplicate check
runs after it and, when it fires, skips only the recording and the internal
broadcast (`continue`).  Discovery requests bypass the request cache.
A remotely-originated message is queued for indication processing. -/
def checkQueueStep (st : AppState) (now : Int) (apdu : Apdu) :
    Except PyError (AppState × List Effect) :=
  match apdu.destination with
  | .localEp ep =>
    if ep == 0 then .ok (st, internalBroadcast apdu)
    else if ep == 1 then .ok (st, [.putIndicationQueue apdu])
    else if ep == 2 then .ok (st, [.putConfig apdu])
    else if ep == 3 then .ok (st, [.putConsole apdu])
    else if ep == 4 then .ok (st, [.putWebgui apdu])
    else if ep == 255 then .ok (st, [])
    else .ok (st, [.logUnknownDestination apdu])
  | .net _ =>
    if selfOriginated st.localAddress apdu.source then
      if apdu.isResponse then
        let mid := outboundMessageId st apdu
        if isDuplicate st.response_dict mid now then
          .ok (st, [.transmitResponse apdu])
        else
          match st.response_dict.setItem mid (apdu, now) with
          | .error e => .error e
          | .ok d =>
            .ok ({ st with response_dict := d },
              .transmitResponse apdu :: internalBroadcast apdu)
      else
        if apdu.isDiscovery then
          .ok (st, .transmitRequest apdu :: internalBroadcast apdu)
        else
          let mid := outboundMessageId st apdu
          if isDuplicate st.request_dict mid now then
            .ok (st, [.transmitRequest apdu])
          else
            match st.request_dict.setItem mid (apdu, now) with
            | .error e => .error e
            | .ok d =>
              .ok ({ st with request_dict := d },
                .transmitRequest apdu :: internalBroadcast apdu)
    else
      .ok (st, [.putIndicationQueue apdu])

/-- Inbound dedup key built by `check_indication_queue`:
`(str(apdu.pduSource), True, apdu.apduService, getattr(apdu, 'apduInvokeID',
None))`. -/
def inboundMessageId (a : Apdu) : MessageId :=
  (srcStr a.source, true, a.service, a.invokeID)

/-- One iteration of the `check_indication_queue` loop body.  A message
whose destination is not node-local is first forwarded to the
config/console/webgui consumers, then dedup-checked: a duplicate is dropped
(`continue`) before `do_indication`; otherwise it is recorded and the
handler is dispatched.  A locally-addressed message goes straight to
`do_indication`. -/
def checkIndicationQueueStep (st : AppState) (now : Int) (apdu : Apdu) :
    Except PyError (AppState × List Effect) :=
  match apdu.destination with
  | .localEp _ => .ok (st, [.invokeHandler apdu])
  | .net _ =>
    let fwd := internalBroadcast apdu
    let mid := inboundMessageId apdu
    if apdu.isResponse then
      if isDuplicate st.response_dict mid now then
        .ok (st, fwd)
      else
        match st.response_dict.setItem mid (apdu, now) with
        | .error e => .error e
        | .ok d =>
          .ok ({ st with response_dict := d }, fwd ++ [.invokeHandler apdu])
    else
      if isDuplicate st.request_dict mid now then
        .ok (st, fwd)
      else
        match st.request_dict.setItem mid (apdu, now) with
        | .error e => .error e
        | .ok d =>
          .ok ({ st with request_dict := d }, fwd ++ [.invokeHandler apdu])

/-- Run the indication loop over a list of timestamped arrivals. -/
def runIndicationQueue (st : AppState) :
    List (Int × Apdu) → Except PyError (AppState × List Effect)
  | [] => .ok (st, [])
  | (now, a) :: rest =>
    match checkIndicationQueueStep st now a with
    | .error e => .error e
    | .ok (st', effs) =>
      match runIndicationQueue st' rest with
      | .error e => .error e
      | .ok (stF, effs') => .ok (stF, effs ++ effs')

/-! ### COV subscription engine
(`HandlerApplication` in `bacnet/app/handler/__init__.py`,
`__do_SubscribeCOV` in `bacnet/app/handler/events.py`,
`Object` in `bacnet/object/basic/general.py`,
`ActiveCovSubscriptionsProperty` in `bacnet/object/properties.py`,
`COVSubscription`/`Remaining` in `bacnet/object/primitivedata.py`). -/

/-- `Recipient`: the optionally-resolved device identifier and the
`DeviceAddress` mac address in canonical string form. -/
structure Recipient where
  device : Option Nat
  address : String
  deriving DecidableEq, Repr

/-- `RecipientProcess`: its only attributes are `recipient` and
`processIdentifier`. -/
structure RecipientProcess where
  recipient : Recipient
  processIdentifier : Nat
  deriving DecidableEq, Repr

/-- `ObjectPropertyReference` with optional property identifier (absent for
whole-object subscriptions) and optional array index. -/
structure PropRef where
  objectIdentifier : Nat
  propertyIdentifier : Option Nat
  propertyArrayIndex : Option Nat
  deriving DecidableEq, Repr

/-- `COVSubscription`.  `Remaining(lifetime)` stores the absolute expiry
timestamp `datetime.utcnow() + timedelta(seconds=lifetime)`; we keep that
timestamp in `expiry`.  `covIncrement` is an optional `Real`, modelled over
`Int`. -/
structure CovSub where
  recipient : RecipientProcess
  monitoredPropertyReference : PropRef
  issueConfirmedNotifications : Bool
  expiry : Int
  covIncrement : Option Int
  deriving DecidableEq, Repr

/-- `Remaining.remaining_time`: seconds from `now` until the stored expiry
timestamp, clamped below at 0. -/
def remainingTime (expiry now : Int) : Int := max 0 (expiry - now)

/-- A key of the `activeCovSubscriptions` mapping.  `renew_cov_subscription`
writes the list under `str(device)`, while `delete_cov_subscription(s)`
looks it up under the raw device identifier; in Python a string never
equals a non-string, so the two constructors never compare equal. -/
inductive PyKey where
  | str (s : String)
  | dev (d : Option Nat)
  deriving DecidableEq, Repr

/-- `str(device)` for an optionally-resolved device identifier. -/
def devStr : Option Nat → String
  | none => "None"
  | some n => toString n

/-- The device → subscription-list mapping stored in
`activeCovSubscriptions`. -/
abbrev SubTable := List (PyKey × List CovSub)

/-- `active_subscriptions.get(k, [])`. -/
def tableGet (t : SubTable) (k : PyKey) : List CovSub := assocGetD t k []

/-- `active_subscriptions[k] = v`. -/
def tableSet (t : SubTable) (k : PyKey) (v : List CovSub) : SubTable :=
  assocSet t k v

/-- `del active_subscriptions[k]`. -/
def tableDel (t : SubTable) (k : PyKey) : SubTable := assocDel t k

/-- The identity comparison of `renew_cov_subscription`: device, process
identifier, object identifier, property identifier and array index must all
match; lifetime, address and the confirmed flag are not compared. -/
def sameIdentity (entry s : CovSub) : Bool :=
  entry.recipient.recipient.device == s.recipient.recipient.device &&
  entry.recipient.processIdentifier == s.recipient.processIdentifier &&
  entry.monitoredPropertyReference.objectIdentifier
      == s.monitoredPropertyReference.objectIdentifier &&
  entry.monitoredPropertyReference.propertyIdentifier
      == s.monitoredPropertyReference.propertyIdentifier &&
  entry.monitoredPropertyReference.propertyArrayIndex
      == s.monitoredPropertyReference.propertyArrayIndex

/-- Replace the first identity-matching entry of a device's subscription
list in place (the loop breaks after the first match); `none` when no entry
matches. -/
def replaceFirstMatch : List CovSub → CovSub → Option (List CovSub)
  | [], _ => none
  | e :: rest, s =>
    if sameIdentity e s then some (s :: rest)
    else (replaceFirstMatch rest s).map (fun l => e :: l)

/-- A monitored-property value: numeric (`Real`/`Unsigned`/`int`/`float`,
modelled over `Int`) or any other payload type. -/
inductive PyValue where
  | num (n : Int)
  | other (s : String)
  deriving DecidableEq, Repr

/-- One `_cov_dict` entry: the subscription plus the cached last-seen value
used for the increment comparison. -/
structure CovEntry where
  subscription : CovSub
  value : Option PyValue
  deriving DecidableEq, Repr

/-- The slice of an `Object` the COV engine touches: identifier,
`_cov_support`, the per-property `cov_support` flags (key presence means the
property exists), the `covIncrement` property value (`none` when the
property is absent or unset), the `(property, index)` pairs
`__get_property_list()` yields for whole-object subscriptions, the current
property values, and `_cov_dict` keyed by property identifier and array
index. -/
structure ObjState where
  objectIdentifier : Nat
  cov_support : Bool
  props : List (Nat × Bool)
  covIncrement : Option Int
  covPropList : List (Nat × Option Nat)
  propValue : List ((Nat × Option Nat) × PyValue)
  cov_dict : List ((Nat × Option Nat) × List CovEntry)
  deriving DecidableEq, Repr

/-- `Object.cov_supported(prop)`: the object-level `_cov_support` flag, and
for a given property also its `cov_support` flag.  (The
identifier-conversion branch in the source tests the Python builtin
`property` and is never taken for property objects.) -/
def covSupported (obj : ObjState) (prop : Option Nat) : Bool :=
  obj.cov_support &&
    match prop with
    | none => true
    | some pid => assocGetD obj.props pid false

/-- `Object.__get_property_list(prop_id, prop_index)`: the single pair for
a property-specific subscription, or every COV-supported property of the
object (arrays expanded) for a whole-object one. -/
def getPropertyList (obj : ObjState) :
    Option Nat → Option Nat → List (Nat × Option Nat)
  | some pid, pidx => [(pid, pidx)]
  | none, _ => obj.covPropList

/-- `prop.ReadProperty(self, prop_index)`: the property's current value. -/
def propRead (obj : ObjState) (pid : Nat) (pidx : Option Nat) : Option PyValue :=
  (obj.propValue.find? (fun e => e.1 = (pid, pidx))).map (·.2)

/-- `Object.__create_cov_entry`: a fresh entry whose cached value is seeded
from the property's current value. -/
def createCovEntry (obj : ObjState) (s : CovSub) (pid : Nat)
    (pidx : Option Nat) : CovEntry :=
  { subscription := s, value := propRead obj pid pidx }

/-- `Object.add_cov_subscription`: append a freshly seeded entry to the
list of every `(property, index)` pair the subscription covers. -/
def objAddCovSubscription (obj : ObjState) (s : CovSub) : ObjState :=
  let props := getPropertyList obj s.monitoredPropertyReference.propertyIdentifier
      s.monitoredPropertyReference.propertyArrayIndex
  { obj with
      cov_dict := props.foldl (fun cd p =>
        assocSet cd p (assocGetD cd p [] ++ [createCovEntry obj s p.1 p.2]))
        obj.cov_dict }

/-- `Object.renew_cov_subscription`: in every covered `(property, index)`
list, replace each entry whose device and process identifier match with a
fresh entry (re-seeded from the property's current value, not reset to the
unseeded state). -/
def objRenewCovSubscription (obj : ObjState) (s : CovSub) : ObjState :=
  let props := getPropertyList obj s.monitoredPropertyReference.propertyIdentifier
      s.monitoredPropertyReference.propertyArrayIndex
  { obj with
      cov_dict := props.foldl (fun cd p =>
        assocSet cd p ((assocGetD cd p []).map (fun e =>
          if e.subscription.recipient.recipient.device
                == s.recipient.recipient.device &&
              e.subscription.recipient.processIdentifier
                == s.recipient.processIdentifier
          then createCovEntry obj s p.1 p.2 else e)))
        obj.cov_dict }

/-- `Object.delete_cov_subscription` (the `_cov_dict` part, over all COV
properties): drop every entry holding one of the given subscriptions; when
a list empties, the source deletes both the index key and — via the second
emptiness check on the same list — the whole property-identifier key.
Membership (`entry['subscription'] in subscriptions`) is object identity in
Python; structurally equal values coincide with identity at the call sites
because the removables are drawn from these same lists. -/
def objDeleteCovSubscription (obj : ObjState) (subs : List CovSub) : ObjState :=
  { obj with
      cov_dict := obj.covPropList.foldl (fun cd p =>
        let l := assocGetD cd p []
        let l' := l.filter (fun e => ¬ subs.contains e.subscription)
        if l'.isEmpty then
          (assocDel cd p).filter (fun e => ¬ e.1.1 = p.1)
        else assocSet cd p l')
        obj.cov_dict }

/-- The application-level handler state the COV engine touches: the
`activeCovSubscriptions` table of the local device, the (single) monitored
object of this model, and `known_devices`. -/
structure HandlerState where
  table : SubTable
  obj : ObjState
  known_devices : List (String × DeviceEntry)
  deriving DecidableEq, Repr

/-- `HandlerApplication.get_device`: the resolved identifier when the
address is known with an `'id'` key, else `None` (after queueing a directed
Who-Is). -/
def getDevice (st : HandlerState) (address : String) : Option Nat :=
  match (st.known_devices.find? (fun e => e.1 = address)).map (·.2) with
  | some d => d.id
  | none => none

/-- Errors surfaced by the subscription handlers: `ExecutionError`
protocol errors (class, code) or plain Python exceptions. -/
inductive HandlerError where
  | execution (errorClass errorCode : String)
  | py (e : PyError)
  deriving DecidableEq, Repr

/-- Result of a handler call: the state after the call (exceptions leave
previously performed mutations in place) and the outcome. -/
structure HandlerResult where
  state : HandlerState
  outcome : Except HandlerError Unit
  deriving Repr

/-- `HandlerApplication.renew_cov_subscription` (run under the
subscription-table lock): look the device's list up under `str(device)`,
overwrite the first identity-matching entry in place and call the object's
renew hook, or append the subscription and call the add hook; both paths
write the table back.  Returns the new table, the new object state and the
`renewed` flag. -/
def renewCovSubscription (table : SubTable) (obj : ObjState) (s : CovSub) :
    SubTable × ObjState × Bool :=
  let k := PyKey.str (devStr s.recipient.recipient.device)
  let subs := tableGet table k
  match replaceFirstMatch subs s with
  | some subs' => (tableSet table k subs', objRenewCovSubscription obj s, true)
  | none => (tableSet table k (subs ++ [s]), objAddCovSubscription obj s, false)

/-- The table-side body of `HandlerApplication.delete_cov_subscriptions`
for one subscription: the device list is looked up under the raw device
identifier (`subscription.recipient.recipient.device`), remove the
subscription if found, dropping the device key when its list empties. -/
def deleteFromTable (table : SubTable) (s : CovSub) : SubTable :=
  let k := PyKey.dev s.recipient.recipient.device
  let ds := tableGet table k
  if s ∈ ds then
    let ds' := ds.erase s
    let t1 := tableSet table k ds'
    if ds'.isEmpty then tableDel t1 k else t1
  else table

/-- `HandlerApplication.delete_cov_subscriptions` (run under the lock):
for each subscription optionally inform the owning object (a failed
`get_object_by_id` lookup would dereference `None`), then remove it from
the device-level table. -/
def deleteCovSubscriptions (table : SubTable) (obj : ObjState)
    (informObject : Bool) :
    List CovSub → Except PyError (SubTable × ObjState)
  | [] => .ok (table, obj)
  | s :: rest =>
    if informObject then
      if obj.objectIdentifier = s.monitoredPropertyReference.objectIdentifier then
        deleteCovSubscriptions (deleteFromTable table s)
          (objDeleteCovSubscription obj [s]) informObject rest
      else .error (.attributeError "delete_cov_subscription")
    else
      deleteCovSubscriptions (deleteFromTable table s) obj informObject rest

/-- `HandlerApplication.delete_cov_subscription` (the singular form, taken
for a cancellation): resolve the device identifiers to scan — the raw
identifier from `get_device`, or every stored key when unknown — and scan
each list.  The very first subscription examined evaluates
`subscription.recipient.device`, an attribute `RecipientProcess` does not
define, so any non-empty scan raises `AttributeError` before mutating
anything; empty scans write the table back unchanged. -/
def deleteCovSubscription (st : HandlerState) (apdu_source : String) :
    HandlerResult :=
  let deviceIds : List PyKey :=
    match getDevice st apdu_source with
    | none => st.table.map (·.1)
    | some d => [PyKey.dev (some d)]
  if deviceIds.all (fun k => (tableGet st.table k).isEmpty) then
    { state := st, outcome := .ok () }
  else
    { state := st, outcome := .error (.py (.attributeError "device")) }

/-- The fields of `SubscribeCOVRequest` / `SubscribeCOVPropertyRequest`
that the handlers consume.  `monitoredProperty` is `none` for a plain
`SubscribeCOVRequest` (no `monitoredPropertyIdentifier` attribute). -/
structure SubscribeApdu where
  subscriberProcessIdentifier : Nat
  source : String
  monitoredObjectIdentifier : Nat
  monitoredProperty : Option (Nat × Option Nat)
  issueConfirmedNotifications : Option Bool
  lifetime : Option Int
  covIncrement : Option Int
  deriving DecidableEq, Repr

/-- The `COVSubscription` value `add_cov_subscription` constructs for a
request with lifetime `lt`: recipient from the source address and resolved
device, property reference filled in only for the property-specific form,
`covIncrement` read only for the property-specific form, and expiry
`now + lt`. -/
def buildSubscription (obj : ObjState) (device : Option Nat) (now : Int)
    (lt : Int) (apdu : SubscribeApdu) : CovSub :=
  { recipient :=
      { recipient := { device := device, address := apdu.source },
        processIdentifier := apdu.subscriberProcessIdentifier },
    monitoredPropertyReference :=
      { objectIdentifier := obj.objectIdentifier,
        propertyIdentifier := apdu.monitoredProperty.map (·.1),
        propertyArrayIndex := apdu.monitoredProperty.bind (·.2) },
    issueConfirmedNotifications := apdu.issueConfirmedNotifications.getD false,
    expiry := now + lt,
    covIncrement :=
      if apdu.monitoredProperty.isSome then apdu.covIncrement else none }

/-- `HandlerApplication.add_cov_subscription`, in source order: raise
unless the object (and, for the property form, the property) supports COV;
take the cancellation path only when notifications are confirmed **and**
the lifetime is absent (`lifetime is None` — a lifetime of 0 does not
cancel); otherwise build the subscription and hand it to
`renew_cov_subscription`.  An absent lifetime on the unconfirmed path makes
the source build a `Remaining` around an unparsable timestamp whose every
later read raises; we surface that as an immediate `ValueError`. -/
def addCovSubscription (st : HandlerState) (now : Int) (apdu : SubscribeApdu) :
    HandlerResult :=
  if covSupported st.obj none = false then
    ⟨st, .error (.execution "object" "optionalFunctionalityNotSupported")⟩
  else
    let propOk :=
      match apdu.monitoredProperty with
      | some (pid, _) => covSupported st.obj (some pid)
      | none => true
    if propOk = false then
      ⟨st, .error (.execution "property" "optionalFunctionalityNotSupported")⟩
    else
      let confirmed := apdu.issueConfirmedNotifications.getD false
      match apdu.lifetime with
      | none =>
        if confirmed then deleteCovSubscription st apdu.source
        else ⟨st, .error (.py .valueError)⟩
      | some lt =>
        let s := buildSubscription st.obj (getDevice st apdu.source) now lt apdu
        let r := renewCovSubscription st.table st.obj s
        ⟨{ st with table := r.1, obj := r.2.1 }, .ok ()⟩

/-- `__do_SubscribeCOV` (`bacnet/app/handler/events.py`): unknown monitored
object and unknown monitored property are rejected before
`add_cov_subscription` runs; on success a `SimpleAckPDU` is produced. -/
def doSubscribeCOV (st : HandlerState) (now : Int) (apdu : SubscribeApdu) :
    HandlerResult :=
  if st.obj.objectIdentifier = apdu.monitoredObjectIdentifier then
    match apdu.monitoredProperty with
    | some (pid, _) =>
      if (st.obj.props.find? (fun e => e.1 = pid)).isSome then
        addCovSubscription st now apdu
      else ⟨st, .error (.execution "property" "unknownProperty")⟩
    | none => addCovSubscription st now apdu
  else ⟨st, .error (.execution "object" "unknownObject")⟩

/-! #### `Object.__check_cov` -/

/-- Python truthiness of an optional numeric cov increment: `None` and `0`
are falsy (`not cov_inc`). -/
def incTruthy : Option Int → Bool
  | none => false
  | some v => v ≠ 0

/-- Python 2 `<=` with a possibly-`None` left operand (`None` sorts below
every number).  Inside `covChange` the `None` case is unreachable: the
falsy-increment disjunct short-circuits first. -/
def pyLe (a : Option Int) (b : Int) : Bool :=
  match a with
  | none => true
  | some v => v ≤ b

/-- `abs(entry['value'] - casted_value)` for numeric operands.  A cached
non-numeric value with a numeric new value would raise `TypeError` in
Python 2; that combination is unreachable because the cache is seeded from
the same property the new value was written to. -/
def absDiff : Option PyValue → PyValue → Int
  | some (.num a), .num b => |a - b|
  | _, _ => 0

/-- The `change` condition of `Object.__check_cov`: non-numeric values and
an unseeded cache always pass; otherwise both increments unset, or the
subscription increment reached while the object increment is unset, or the
object increment reached while the subscription increment is unset. -/
def covChange (casted : PyValue) (cached : Option PyValue)
    (cov_inc obj_inc : Option Int) : Bool :=
  (match casted with | .num _ => false | .other _ => true) ||
  cached == none ||
  ((!incTruthy cov_inc && !incTruthy obj_inc) ||
   (!incTruthy obj_inc && pyLe cov_inc (absDiff cached casted)) ||
   (!incTruthy cov_inc && pyLe obj_inc (absDiff cached casted)))

/-- Per-subscription step of `__check_cov`: an expired entry goes to the
removables (not notified); otherwise, when the value changed and the change
condition holds, a notification is sent and the cached value updated.
Returns the stored entry, the notified flag and the removable flag. -/
def checkCovEntry (now : Int) (obj_inc : Option Int) (casted : PyValue)
    (e : CovEntry) : CovEntry × Bool × Bool :=
  if remainingTime e.subscription.expiry now = 0 then (e, false, true)
  else if e.value ≠ some casted then
    if covChange casted e.value e.subscription.covIncrement obj_inc then
      ({ e with value := some casted }, true, false)
    else (e, false, false)
  else (e, false, false)

/-- Result of `__check_cov` on a write: the table and object after the
scan, and the subscriptions notified (in list order). -/
structure CheckCovResult where
  table : SubTable
  obj : ObjState
  notified : List CovSub
  deriving DecidableEq, Repr

/-- `Object.__check_cov` for a write of `casted` to `(pid, pidx)` (the
read-acknowledgement copy queued to the config endpoint at the top of the
source is not modelled here).  When the property supports COV, scan its
subscription list with `checkCovEntry`, store the updated list back, and
delete the collected removables through `delete_cov_subscription` with
`inform_app=True` (which reaches the device-level table only through the
raw-keyed `delete_cov_subscriptions`). -/
def checkCov (table : SubTable) (obj : ObjState) (now : Int)
    (pid : Nat) (pidx : Option Nat) (casted : PyValue) : CheckCovResult :=
  if assocGetD obj.props pid false = false then ⟨table, obj, []⟩
  else
    let l := assocGetD obj.cov_dict (pid, pidx) []
    let scanned := l.map (checkCovEntry now obj.covIncrement casted)
    let stored := scanned.map (·.1)
    let notified := ((scanned.filter (fun r => r.2.1)).map (·.1)).map
      (·.subscription)
    let removables := ((scanned.filter (fun r => r.2.2)).map (·.1)).map
      (·.subscription)
    let obj1 := { obj with cov_dict := assocSet obj.cov_dict (pid, pidx) stored }
    if removables.isEmpty then ⟨table, obj1, notified⟩
    else
      let obj2 := objDeleteCovSubscription obj1 removables
      let table2 := removables.foldl deleteFromTable table
      ⟨table2, obj2, notified⟩

/-- `ActiveCovSubscriptionsProperty.ReadProperty` in its default
(non-dictionary) form: every stored subscription whose lazily computed
remaining lifetime is 0 goes to the removables and is handed to
`delete_cov_subscriptions` (with object inform), the rest form the returned
sequence. -/
def activeCovSubscriptionsRead (table : SubTable) (obj : ObjState)
    (now : Int) : Except PyError (List CovSub × SubTable × ObjState) :=
  let allSubs := (table.map (·.2)).flatten
  let removables := allSubs.filter (fun s => remainingTime s.expiry now = 0)
  let visible := allSubs.filter (fun s => ¬ remainingTime s.expiry now = 0)
  if removables.isEmpty then .ok (visible, table, obj)
  else
    match deleteCovSubscriptions table obj true removables with
    | .error e => .error e
    | .ok (t', o') => .ok (visible, t', o')

end Bacnet

namespace Bacnet

/-! ### Concrete scenario data used by the claim theorems -/

/-- A self-originated unconfirmed COV notification bound for a network
peer: not a response PDU, not a discovery request, so the request cache
applies to it. -/
def selfNotification : Apdu :=
  { source := none, destination := .net "192.168.0.9", service := 2,
    invokeID := none, isResponse := false, isDiscovery := false }

/-- The state after `check_queue` has processed `selfNotification` once at
time 0 from `freshAppState 1 "self"`: the message recorded in the request
cache under its outbound key. -/
def selfNotificationSt1 : AppState :=
  { freshAppState 1 "self" with
      request_dict :=
        ⟨500, 1, [(("192.168.0.9", false, 2, some 0), (selfNotification, 0))]⟩ }

/-- An inbound confirmed request from a network peer, addressed to this
node's network address (not a node-local endpoint). -/
def inboundConfirmed : Apdu :=
  { source := some (.net "10.0.0.5"), destination := .net "172.16.0.2",
    service := 12, invokeID := some 7, isResponse := false,
    isDiscovery := false }

/-- State after `check_indication_queue` has processed `inboundConfirmed`
once at time 0 from a fresh state. -/
def inboundConfirmedSt1 : AppState :=
  { freshAppState 1 "self" with
      request_dict :=
        ⟨500, 1, [(("10.0.0.5", true, 12, some 7), (inboundConfirmed, 0))]⟩ }

/-- First subscription request's value: device 7 at "10.0.0.5", process 1,
object 5, property 85, no index, confirmed, expiry 3600. -/
def c7Sub1 : CovSub :=
  { recipient :=
      { recipient := { device := some 7, address := "10.0.0.5" },
        processIdentifier := 1 },
    monitoredPropertyReference :=
      { objectIdentifier := 5, propertyIdentifier := some 85,
        propertyArrayIndex := none },
    issueConfirmedNotifications := true, expiry := 3600,
    covIncrement := none }

/-- Renewal of `c7Sub1`: identical identity, different lifetime and
address. -/
def c7Sub2 : CovSub :=
  { recipient :=
      { recipient := { device := some 7, address := "10.0.0.6" },
        processIdentifier := 1 },
    monitoredPropertyReference :=
      { objectIdentifier := 5, propertyIdentifier := some 85,
        propertyArrayIndex := none },
    issueConfirmedNotifications := false, expiry := 7200,
    covIncrement := none }

/-- The monitored object used by the concrete scenarios: object 5 with one
COV-supported property 85, current value 10, no object increment, empty
`_cov_dict`. -/
def c7Obj : ObjState :=
  { objectIdentifier := 5, cov_support := true, props := [(85, true)],
    covIncrement := none, covPropList := [(85, none)],
    propValue := [((85, none), .num 10)], cov_dict := [] }

/-- A subscription request for an unknown object (the handler state's only
object is 5, the request monitors 6). -/
def unknownObjApdu : SubscribeApdu :=
  { subscriberProcessIdentifier := 1, source := "10.0.0.5",
    monitoredObjectIdentifier := 6, monitoredProperty := none,
    issueConfirmedNotifications := some true, lifetime := some 60,
    covIncrement := none }

/-- A handler state with one live subscription, used by the concrete error
scenario. -/
def c10St : HandlerState :=
  { table := [(.str "7", [c7Sub1])],
    obj := { c7Obj with
      cov_dict := [((85, none), [{ subscription := c7Sub1,
                                   value := some (.num 10) }])] },
    known_devices := [("10.0.0.5", { id := some 7, last_seen := some 0 })] }

/-- A property-specific subscribe request for object 5 / property 85 with
lifetime 0, from the known device at "10.0.0.5". -/
def c4Apdu : SubscribeApdu :=
  { subscriberProcessIdentifier := 1, source := "10.0.0.5",
    monitoredObjectIdentifier := 5, monitoredProperty := some (85, none),
    issueConfirmedNotifications := some true, lifetime := some 0,
    covIncrement := none }

/-- The subscription the lifetime-0 request builds: identical identity to
`c7Sub1`, expiry equal to the request time 1000. -/
def c4NewSub : CovSub :=
  { recipient :=
      { recipient := { device := some 7, address := "10.0.0.5" },
        processIdentifier := 1 },
    monitoredPropertyReference :=
      { objectIdentifier := 5, propertyIdentifier := some 85,
        propertyArrayIndex := none },
    issueConfirmedNotifications := true, expiry := 1000,
    covIncrement := none }

/-- A whole-object subscription for device 7 on object 5, expiring at 3600. -/
def c4WholeSub : CovSub :=
  { recipient :=
      { recipient := { device := some 7, address := "10.0.0.5" },
        processIdentifier := 1 },
    monitoredPropertyReference :=
      { objectIdentifier := 5, propertyIdentifier := none,
        propertyArrayIndex := none },
    issueConfirmedNotifications := true, expiry := 3600,
    covIncrement := none }

/-- Handler state holding `c4WholeSub`, for the lifetime-0 witness. -/
def c4St : HandlerState :=
  { table := [(.str "7", [c4WholeSub])], obj := c7Obj,
    known_devices := [("10.0.0.5", { id := some 7, last_seen := some 0 })] }

/-- The whole-object lifetime-0 request matching `c4WholeSub`. -/
def c4WholeApdu : SubscribeApdu :=
  { subscriberProcessIdentifier := 1, source := "10.0.0.5",
    monitoredObjectIdentifier := 5, monitoredProperty := none,
    issueConfirmedNotifications := some true, lifetime := some 0,
    covIncrement := none }

/-- A live subscription on object 5 / property 85 with cov increment 1. -/
def c6BothSub : CovSub :=
  { recipient :=
      { recipient := { device := some 7, address := "10.0.0.5" },
        processIdentifier := 1 },
    monitoredPropertyReference :=
      { objectIdentifier := 5, propertyIdentifier := some 85,
        propertyArrayIndex := none },
    issueConfirmedNotifications := false, expiry := 100000,
    covIncrement := some 1 }

/-- Object 5 with its own covIncrement property set to 1 and `c6BothSub`
subscribed with cached value 10. -/
def c6BothObj : ObjState :=
  { c7Obj with
    covIncrement := some 1
    cov_dict := [((85, none),
      [{ subscription := c6BothSub, value := some (.num 10) }])] }

/-- The subscription of the concrete threshold scenario: cov increment 2,
no object increment. -/
def c6Sub : CovSub :=
  { recipient :=
      { recipient := { device := some 7, address := "10.0.0.5" },
        processIdentifier := 1 },
    monitoredPropertyReference :=
      { objectIdentifier := 5, propertyIdentifier := some 85,
        propertyArrayIndex := none },
    issueConfirmedNotifications := false, expiry := 100000,
    covIncrement := some 2 }

/-- Object 5 with `c6Sub` subscribed, cached value 10, no object
increment. -/
def c6Obj : ObjState :=
  { c7Obj with
    cov_dict := [((85, none),
      [{ subscription := c6Sub, value := some (.num 10) }])] }

/-- A subscription created at time 0 with lifetime 1 second: expiry 1. -/
def c8Sub : CovSub :=
  { recipient :=
      { recipient := { device := some 7, address := "10.0.0.5" },
        processIdentifier := 1 },
    monitoredPropertyReference :=
      { objectIdentifier := 5, propertyIdentifier := some 85,
        propertyArrayIndex := none },
    issueConfirmedNotifications := false, expiry := 1,
    covIncrement := none }

/-- The table as `renew_cov_subscription` stores it: keyed by
`str(device)`. -/
def c8Table : SubTable := [(.str "7", [c8Sub])]

/-- Object 5 with `c8Sub` in its per-property index. -/
def c8Obj : ObjState :=
  { c7Obj with
    cov_dict := [((85, none),
      [{ subscription := c8Sub, value := some (.num 10) }])] }

/-! ### Helper lemmas -/

theorem assocGetD_assocSet {κ α : Type} [DecidableEq κ] (l : List (κ × α))
    (k : κ) (v dflt : α) : assocGetD (assocSet l k v) k dflt = v := by
  induction l with
  | nil => simp [assocSet, assocGetD]
  | cons e rest ih =>
    by_cases he : e.1 = k
    · simp [assocSet, assocGetD, he]
    · by_cases hr : rest.any (fun x => x.1 = k)
      · simp [assocSet, assocGetD, he, hr] at ih ⊢
        exact ih
      · simp [assocSet, assocGetD, he, hr] at ih ⊢
        exact ih

theorem tableGet_tableSet (t : SubTable) (k : PyKey) (v : List CovSub) :
    tableGet (tableSet t k v) k = v :=
  assocGetD_assocSet t k v []

theorem sameIdentity_refl (s : CovSub) : sameIdentity s s = true := by
  simp [sameIdentity]

theorem sameIdentity_congr (e s1 s2 : CovSub)
    (h : sameIdentity s1 s2 = true) :
    sameIdentity e s2 = sameIdentity e s1 := by
  unfold sameIdentity at *
  simp only [Bool.and_eq_true, beq_iff_eq] at h
  obtain ⟨⟨⟨⟨h1, h2⟩, h3⟩, h4⟩, h5⟩ := h
  rw [h1, h2, h3, h4, h5]

theorem sameIdentity_device (s1 s2 : CovSub)
    (h : sameIdentity s1 s2 = true) :
    s1.recipient.recipient.device = s2.recipient.recipient.device := by
  unfold sameIdentity at h
  simp only [Bool.and_eq_true, beq_iff_eq] at h
  exact h.1.1.1.1

theorem replaceFirstMatch_none (l : List CovSub) (s : CovSub)
    (h : ∀ e ∈ l, sameIdentity e s = false) :
    replaceFirstMatch l s = none := by
  induction l with
  | nil => rfl
  | cons e rest ih =>
    have he := h e (List.mem_cons_self e rest)
    have hr : replaceFirstMatch rest s = none :=
      ih (fun x hx => h x (List.mem_cons_of_mem e hx))
    simp [replaceFirstMatch, he, hr]

theorem replaceFirstMatch_append (l : List CovSub) (s1 s2 : CovSub)
    (h : ∀ e ∈ l, sameIdentity e s2 = false)
    (h12 : sameIdentity s1 s2 = true) :
    replaceFirstMatch (l ++ [s1]) s2 = some (l ++ [s2]) := by
  induction l with
  | nil => simp [replaceFirstMatch, h12]
  | cons e rest ih =>
    have he := h e (List.mem_cons_self e rest)
    have hr := ih (fun x hx => h x (List.mem_cons_of_mem e hx))
    simp [replaceFirstMatch, he, hr]

/-! ### Claim theorems -/

/-- C2: the claim says inserting a new key into a full `RingDict` succeeds,
evicts the oldest key and never raises.  The code instead raises
`AttributeError` on the overflow insert: with capacity 2, the third distinct
key is refused and nothing is evicted. -/
theorem ringDict_overflow_raises_attributeError :
    RingDict.insertAll (RingDict.empty Nat Nat 2) [(10, 0), (11, 1), (12, 2)]
      = .error (.attributeError "_RingDict__root") := by
  rfl

/-- C2 general form: any insert of a fresh key while `size ≤ pos` raises,
leaving no way to ever hold `capacity + 1` distinct keys. -/
theorem ringDict_full_insert_raises (d : RingDict Nat Nat) (k v : Nat)
    (hfresh : d.contains k = false) (hfull : d.size ≤ d.pos) :
    d.setItem k v = .error (.attributeError "_RingDict__root") := by
  unfold RingDict.setItem
  rw [hfresh]
  simp [hfull]

/-- Witness for `ringDict_full_insert_raises` at a concrete full dictionary. -/
theorem ringDict_full_insert_raises_witness :
    (RingDict.mk 1 1 [(5, 5)] : RingDict Nat Nat).contains 6 = false ∧
      (RingDict.mk 1 1 [(5, 5)] : RingDict Nat Nat).setItem 6 0
        = .error (.attributeError "_RingDict__root") :=
  ⟨by rfl, ringDict_full_insert_raises _ 6 0 (by rfl) (by decide)⟩

/-- C3: the claim says the lock-acquisition helper retries only a bounded
number of times and then gives up with a busy error.  In the code `tries`
is reset to 0 and the `tries` keyword deleted on every call, so the
`tries > retries` guard never fires: against a permanently busy lock the
recursion runs forever (for every unfolding depth it is still running), and
the give-up branch (`return None`) is unreachable for every acquisition
pattern. -/
theorem lock_subscriptions_retries_unbounded :
    (∀ fuel attempt kw,
        lockInner (fun _ => false) fuel attempt kw = .runsForever) ∧
    (∀ acquire fuel attempt kw, lockInner acquire fuel attempt kw ≠ .busy) := by
  constructor
  · intro fuel
    induction fuel with
    | zero => intro attempt kw; rfl
    | succ n ih =>
      intro attempt kw
      show lockInner (fun _ => false) n (attempt + 1) (some (0 + 1)) = .runsForever
      exact ih (attempt + 1) (some (0 + 1))
  · intro acquire fuel
    induction fuel with
    | zero =>
      intro attempt kw h
      simp only [lockInner, lockRetries] at h
      norm_num at h
      split at h <;> simp_all
    | succ n ih =>
      intro attempt kw h
      simp only [lockInner, lockRetries] at h
      norm_num at h
      split at h
      · simp_all
      · exact ih (attempt + 1) (some (0 + 1)) h

/-- C9: on wrap-around of the Who-Is offset the known-device sweep runs:
entries last seen more than 5400 seconds ago are evicted, entries within
5400 seconds are kept unchanged, and entries with a future or missing
last-seen stamp are refreshed to the current time. -/
theorem update_devices_wraparound_sweep (now : Int) (st : DiscoveryState)
    (hwrap : maxId < st.offset + whoIsWindow) :
    (updateDevicesStep now st).known = sweepKnownDevices now st.known ∧
    (∀ d : DeviceEntry, ∀ t, d.last_seen = some t → 5400 < now - t →
        sweepDevice now d = none) ∧
    (∀ d : DeviceEntry, ∀ t, d.last_seen = some t → now - t ≤ 5400 → t ≤ now →
        sweepDevice now d = some d) ∧
    (∀ d : DeviceEntry, ∀ t, d.last_seen = some t → now < t →
        sweepDevice now d = some { d with last_seen := some now }) ∧
    (∀ d : DeviceEntry, d.last_seen = none →
        sweepDevice now d = some { d with last_seen := some now }) := by
  refine ⟨?_, ?_, ?_, ?_, ?_⟩
  · unfold updateDevicesStep
    simp [hwrap]
  · intro d t h hold
    unfold sweepDevice
    rw [h]
    simp [hold]
  · intro d t h hrecent hpast
    unfold sweepDevice
    rw [h]
    have h1 : ¬ (5400 : Int) < now - t := by omega
    have h2 : ¬ now < t := by omega
    simp [h1, h2]
  · intro d t h hfuture
    unfold sweepDevice
    rw [h]
    have h1 : ¬ (5400 : Int) < now - t := by omega
    simp [h1, hfuture]
  · intro d h
    unfold sweepDevice
    rw [h]

/-! Concrete messages and states used by the router claims. -/

/-- C1 counterexample: the claim says a duplicate self-originated message
is neither transmitted nor internally broadcast.  Processing the same
message twice within 15 seconds shows the second pass still hands the
message to the transport (`transmitRequest`); only the internal broadcast
is suppressed, because `check_queue` transmits before it consults the
duplicate cache. -/
theorem checkQueue_duplicate_still_transmitted :
    checkQueueStep (freshAppState 1 "self") 0 selfNotification
      = .ok (selfNotificationSt1,
          [.transmitRequest selfNotification, .putConfig selfNotification,
           .putConsole selfNotification, .putWebgui selfNotification]) ∧
    checkQueueStep selfNotificationSt1 1 selfNotification
      = .ok (selfNotificationSt1, [.transmitRequest selfNotification]) :=
  ⟨rfl, rfl⟩

/-- C1 amended: for a self-originated message with a network destination,
`check_queue` transmits first and only then consults the duplicate cache
(responses the response cache, non-discovery requests the request cache);
the duplicate check gates only the recording and the internal broadcast, so
a duplicate is transmitted but not broadcast, and a non-duplicate is
transmitted exactly once and observed exactly once by each of the
config/console/webgui consumers. -/
theorem checkQueue_transmit_then_dedup (st : AppState) (now : Int)
    (apdu : Apdu) (s : String)
    (hdest : apdu.destination = .net s)
    (hself : selfOriginated st.localAddress apdu.source = true) :
    (apdu.isResponse = false → apdu.isDiscovery = false →
      (isDuplicate st.request_dict (outboundMessageId st apdu) now = true →
        checkQueueStep st now apdu = .ok (st, [.transmitRequest apdu])) ∧
      (∀ d, isDuplicate st.request_dict (outboundMessageId st apdu) now = false →
        st.request_dict.setItem (outboundMessageId st apdu) (apdu, now) = .ok d →
        checkQueueStep st now apdu
          = .ok ({ st with request_dict := d },
              [.transmitRequest apdu, .putConfig apdu, .putConsole apdu,
               .putWebgui apdu]))) ∧
    (apdu.isResponse = true →
      (isDuplicate st.response_dict (outboundMessageId st apdu) now = true →
        checkQueueStep st now apdu = .ok (st, [.transmitResponse apdu])) ∧
      (∀ d, isDuplicate st.response_dict (outboundMessageId st apdu) now = false →
        st.response_dict.setItem (outboundMessageId st apdu) (apdu, now) = .ok d →
        checkQueueStep st now apdu
          = .ok ({ st with response_dict := d },
              [.transmitResponse apdu, .putConfig apdu, .putConsole apdu,
               .putWebgui apdu]))) ∧
    (apdu.isResponse = false → apdu.isDiscovery = true →
      checkQueueStep st now apdu
        = .ok (st,
            [.transmitRequest apdu, .putConfig apdu, .putConsole apdu,
             .putWebgui apdu])) := by
  obtain ⟨asrc, adest, asvc, ainv, aresp, adisc⟩ := apdu
  simp only at hdest
  subst hdest
  refine ⟨?_, ?_, ?_⟩
  · intro hresp hdisc
    simp only at hresp hdisc
    subst hresp hdisc
    constructor
    · intro hdup
      simp [checkQueueStep, hself, hdup, internalBroadcast]
    · intro d hdup hset
      simp [checkQueueStep, hself, hdup, hset, internalBroadcast]
  · intro hresp
    simp only at hresp
    subst hresp
    constructor
    · intro hdup
      simp [checkQueueStep, hself, hdup, internalBroadcast]
    · intro d hdup hset
      simp [checkQueueStep, hself, hdup, hset, internalBroadcast]
  · intro hresp hdisc
    simp only at hresp hdisc
    subst hresp hdisc
    simp [checkQueueStep, hself, internalBroadcast]

/-- Witness for `checkQueue_transmit_then_dedup`: the duplicate branch at
the concrete state recorded after a first transmission. -/
theorem checkQueue_transmit_then_dedup_witness :
    isDuplicate selfNotificationSt1.request_dict
        (outboundMessageId selfNotificationSt1 selfNotification) 1 = true ∧
      checkQueueStep selfNotificationSt1 1 selfNotification
        = .ok (selfNotificationSt1, [.transmitRequest selfNotification]) :=
  ⟨by rfl,
   ((checkQueue_transmit_then_dedup selfNotificationSt1 1 selfNotification
        "192.168.0.9" (by rfl) (by rfl)).1 (by rfl) (by rfl)).1 (by rfl)⟩

/-- C5 counterexample: the claim says the duplicate is dropped with no
handler invocation and no forwarding to any local consumer.  Receiving the
same confirmed message twice within 15 seconds shows the second receipt is
still forwarded to config, console and webgui (the forwarding runs before
the duplicate check); only the handler invocation is suppressed. -/
theorem checkIndication_duplicate_still_forwarded :
    checkIndicationQueueStep (freshAppState 1 "self") 0 inboundConfirmed
      = .ok (inboundConfirmedSt1,
          [.putConfig inboundConfirmed, .putConsole inboundConfirmed,
           .putWebgui inboundConfirmed, .invokeHandler inboundConfirmed]) ∧
    checkIndicationQueueStep inboundConfirmedSt1 1 inboundConfirmed
      = .ok (inboundConfirmedSt1,
          [.putConfig inboundConfirmed, .putConsole inboundConfirmed,
           .putWebgui inboundConfirmed]) :=
  ⟨rfl, rfl⟩

/-- C5 amended: receiving the same confirmed message (same peer, service,
invoke id) three times — twice within 15 seconds, the third more than 15
seconds after the recorded entry — yields exactly two handler invocations:
the duplicate second receipt is dropped before the handler but after the
forwarding to the consumers, and each receipt is forwarded once to each
consumer. -/
theorem checkIndication_dedup_idempotent (a : Apdu) (s la : String)
    (nid n : Nat) (t1 t2 t3 : Int)
    (hdest : a.destination = .net s) (hinv : a.invokeID = some n)
    (hreq : a.isResponse = false)
    (hdup : |t1 - t2| < 15) (hfar : ¬ |t1 - t3| < 15) :
    runIndicationQueue (freshAppState nid la) [(t1, a), (t2, a), (t3, a)]
      = .ok ({ freshAppState nid la with
                request_dict := ⟨500, 1, [(inboundMessageId a, (a, t3))]⟩ },
          internalBroadcast a ++ [.invokeHandler a]
            ++ (internalBroadcast a
              ++ (internalBroadcast a ++ [.invokeHandler a] ++ []))) := by
  obtain ⟨asrc, adest, asvc, ainv, aresp, adisc⟩ := a
  simp only at hdest hinv hreq
  subst hdest hinv hreq
  simp [runIndicationQueue, checkIndicationQueueStep, isDuplicate,
    inboundMessageId, RingDict.setItem, RingDict.contains, RingDict.get?,
    RingDict.updateExisting, RingDict.empty, freshAppState, internalBroadcast,
    hdup, hfar]

/-- Witness for `checkIndication_dedup_idempotent` at the concrete inbound
message, received at times 0, 1 and 16. -/
theorem checkIndication_dedup_idempotent_witness :
    inboundConfirmed.destination = .net "172.16.0.2" ∧
      inboundConfirmed.invokeID = some 7 ∧
      inboundConfirmed.isResponse = false ∧
      |(0 : Int) - 1| < 15 ∧ ¬ |(0 : Int) - 16| < 15 ∧
      runIndicationQueue (freshAppState 1 "self")
          [(0, inboundConfirmed), (1, inboundConfirmed), (16, inboundConfirmed)]
        = .ok ({ freshAppState 1 "self" with
                  request_dict :=
                    ⟨500, 1, [(inboundMessageId inboundConfirmed,
                               (inboundConfirmed, 16))]⟩ },
            internalBroadcast inboundConfirmed ++ [.invokeHandler inboundConfirmed]
              ++ (internalBroadcast inboundConfirmed
                ++ (internalBroadcast inboundConfirmed
                  ++ [.invokeHandler inboundConfirmed] ++ []))) :=
  ⟨rfl, rfl, rfl, by decide, by decide,
   checkIndication_dedup_idempotent inboundConfirmed "172.16.0.2" "self" 1 7
     0 1 16 rfl rfl rfl (by decide) (by decide)⟩

/-- Witness for `update_devices_wraparound_sweep`: a concrete wrap-around
iteration at time 10000 evicts the entry stamped 5401 seconds in the past,
keeps the one stamped 5399 seconds in the past, and refreshes a
future-stamped and a stampless entry. -/
theorem update_devices_wraparound_sweep_witness :
    maxId < (4190208 : Nat) + whoIsWindow ∧
      (updateDevicesStep 10000
          ⟨4190208, 7,
            [("a", ⟨some 1, some 4599⟩), ("b", ⟨some 2, some 4601⟩),
             ("c", ⟨some 3, some 20000⟩), ("d", ⟨some 4, none⟩)]⟩).known
        = sweepKnownDevices 10000
            [("a", ⟨some 1, some 4599⟩), ("b", ⟨some 2, some 4601⟩),
             ("c", ⟨some 3, some 20000⟩), ("d", ⟨some 4, none⟩)] ∧
      sweepKnownDevices 10000
          [("a", ⟨some 1, some 4599⟩), ("b", ⟨some 2, some 4601⟩),
           ("c", ⟨some 3, some 20000⟩), ("d", ⟨some 4, none⟩)]
        = [("b", ⟨some 2, some 4601⟩), ("c", ⟨some 3, some 10000⟩),
           ("d", ⟨some 4, some 10000⟩)] :=
  ⟨by decide,
   (update_devices_wraparound_sweep 10000 _ (by decide)).1,
   by decide⟩

/-- C7: subscribing twice with identical identity (device id, process id,
object id, property id, array index) but different lifetime/address: the
first request appends the subscription and calls the object's add hook
(`renewed = false`); the second overwrites the first in place and calls the
object's renew hook (`renewed = true`); the device's list then holds
exactly one identity-matching entry, the second subscription with its
lifetime and address. -/
theorem renew_subscription_identity (table : SubTable) (obj : ObjState)
    (s1 s2 : CovSub) (l0 : List CovSub) (k : PyKey)
    (hkdef : k = PyKey.str (devStr s1.recipient.recipient.device))
    (hk : tableGet table k = l0)
    (hnone : ∀ e ∈ l0, sameIdentity e s1 = false)
    (hid : sameIdentity s1 s2 = true) :
    renewCovSubscription table obj s1
      = (tableSet table k (l0 ++ [s1]), objAddCovSubscription obj s1, false) ∧
    renewCovSubscription (tableSet table k (l0 ++ [s1]))
        (objAddCovSubscription obj s1) s2
      = (tableSet (tableSet table k (l0 ++ [s1])) k (l0 ++ [s2]),
         objRenewCovSubscription (objAddCovSubscription obj s1) s2, true) ∧
    tableGet (tableSet (tableSet table k (l0 ++ [s1])) k (l0 ++ [s2])) k
      = l0 ++ [s2] ∧
    (l0 ++ [s2]).countP (fun e => sameIdentity e s2) = 1 := by
  have hdev := sameIdentity_device s1 s2 hid
  have hnone2 : ∀ e ∈ l0, sameIdentity e s2 = false := by
    intro e he
    rw [sameIdentity_congr e s1 s2 hid]
    exact hnone e he
  refine ⟨?_, ?_, ?_, ?_⟩
  · simp only [renewCovSubscription]
    rw [← hkdef, hk, replaceFirstMatch_none l0 s1 hnone]
  · simp only [renewCovSubscription]
    rw [← hdev, ← hkdef, tableGet_tableSet,
      replaceFirstMatch_append l0 s1 s2 hnone2 hid]
  · rw [tableGet_tableSet]
  · have h0 : l0.countP (fun e => sameIdentity e s2) = 0 :=
      List.countP_eq_zero.mpr (fun a ha => by simp [hnone2 a ha])
    simp [List.countP_append, h0, List.countP_cons, sameIdentity_refl]

/-- Witness for `renew_subscription_identity`: the two concrete requests on
an empty table. -/
theorem renew_subscription_identity_witness :
    renewCovSubscription [] c7Obj c7Sub1
      = (tableSet [] (.str "7") ([] ++ [c7Sub1]),
         objAddCovSubscription c7Obj c7Sub1, false) ∧
    renewCovSubscription (tableSet [] (.str "7") ([] ++ [c7Sub1]))
        (objAddCovSubscription c7Obj c7Sub1) c7Sub2
      = (tableSet (tableSet [] (.str "7") ([] ++ [c7Sub1])) (.str "7")
           ([] ++ [c7Sub2]),
         objRenewCovSubscription (objAddCovSubscription c7Obj c7Sub1) c7Sub2,
         true) ∧
    tableGet (tableSet (tableSet [] (.str "7") ([] ++ [c7Sub1])) (.str "7")
        ([] ++ [c7Sub2])) (.str "7") = [] ++ [c7Sub2] ∧
    ([] ++ [c7Sub2]).countP (fun e => sameIdentity e c7Sub2) = 1 :=
  renew_subscription_identity [] c7Obj c7Sub1 c7Sub2 [] (.str "7")
    rfl rfl (fun e he => absurd he (List.not_mem_nil e)) rfl

/-- `deleteCovSubscription` returns its input state on every path. -/
theorem deleteCovSubscription_state (st : HandlerState) (src : String) :
    (deleteCovSubscription st src).state = st := by
  simp only [deleteCovSubscription]
  split <;> rfl

/-- `addCovSubscription` leaves the state unchanged on every error. -/
theorem addCovSubscription_error_state (st : HandlerState) (now : Int)
    (apdu : SubscribeApdu) (e : HandlerError)
    (h : (addCovSubscription st now apdu).outcome = Except.error e) :
    (addCovSubscription st now apdu).state = st := by
  revert h
  simp only [addCovSubscription]
  split
  · intro _; rfl
  · split
    · intro _; rfl
    · split
      · split
        · intro _; exact deleteCovSubscription_state st apdu.source
        · intro _; rfl
      · intro h; exact absurd h (by simp)

/-- C10: a SubscribeCOV(Property) request that fails with a protocol error
(unknown monitored object, unknown monitored property, COV unsupported by
the object or by the property) leaves the COV subscription state — the
device-level table and the object's per-property index — unchanged: every
such error is raised before any mutation. -/
theorem subscribeCOV_protocol_error_no_mutation (st : HandlerState)
    (now : Int) (apdu : SubscribeApdu) (ec ecode : String)
    (herr : (doSubscribeCOV st now apdu).outcome
      = Except.error (.execution ec ecode)) :
    (doSubscribeCOV st now apdu).state = st ∧
    (doSubscribeCOV st now apdu).state.table = st.table ∧
    (doSubscribeCOV st now apdu).state.obj.cov_dict = st.obj.cov_dict := by
  have hstate : (doSubscribeCOV st now apdu).state = st := by
    revert herr
    simp only [doSubscribeCOV]
    split
    · split
      · split
        · intro h; exact addCovSubscription_error_state st now apdu _ h
        · intro _; rfl
      · intro h; exact addCovSubscription_error_state st now apdu _ h
    · intro _; rfl
  exact ⟨hstate, by rw [hstate], by rw [hstate]⟩

/-- Witness for `subscribeCOV_protocol_error_no_mutation`: the
unknown-object request against `c10St` errors and mutates nothing. -/
theorem subscribeCOV_protocol_error_no_mutation_witness :
    (doSubscribeCOV c10St 1000 unknownObjApdu).outcome
      = Except.error (.execution "object" "unknownObject") ∧
    (doSubscribeCOV c10St 1000 unknownObjApdu).state = c10St ∧
    (doSubscribeCOV c10St 1000 unknownObjApdu).state.table = c10St.table ∧
    (doSubscribeCOV c10St 1000 unknownObjApdu).state.obj.cov_dict
      = c10St.obj.cov_dict :=
  ⟨by rfl,
   subscribeCOV_protocol_error_no_mutation c10St 1000 unknownObjApdu
     "object" "unknownObject" (by rfl)⟩

/-- C4 counterexample: the claim says a lifetime-0 request removes the
matching subscription from the device table and the object index, dropping
the device key.  Against `c10St` (one matching subscription) the request
instead succeeds as a renewal: the device list still holds one entry — the
rebuilt subscription whose expiry equals the request time — and the object
index still holds its entry; nothing is removed at request time.  (The
cancellation branch in `add_cov_subscription` requires `lifetime is None`,
not 0.) -/
theorem subscribe_lifetime_zero_not_a_delete :
    (doSubscribeCOV c10St 1000 c4Apdu).outcome = .ok () ∧
    (doSubscribeCOV c10St 1000 c4Apdu).state.table
      = [(.str "7", [c4NewSub])] ∧
    (doSubscribeCOV c10St 1000 c4Apdu).state.obj.cov_dict
      = [((85, none), [{ subscription := c4NewSub, value := some (.num 10) }])] ∧
    remainingTime c4NewSub.expiry 1000 = 0 :=
  ⟨rfl, rfl, rfl, rfl⟩

/-- C4 amended: a `SubscribeCOV` request with lifetime = 0 does not delete
the matching subscription; it overwrites it in place with a subscription
whose expiry is the request time, so its remaining lifetime is 0 at every
later read (it is then excluded and swept lazily by reads).  Removal is
attempted only when notifications are confirmed and the lifetime is absent. -/
theorem subscribe_lifetime_zero_renews_expired (st : HandlerState)
    (now : Int) (apdu : SubscribeApdu) (s0 : CovSub)
    (hobj : st.obj.objectIdentifier = apdu.monitoredObjectIdentifier)
    (hsup : st.obj.cov_support = true)
    (hprop : apdu.monitoredProperty = none)
    (hconf : apdu.issueConfirmedNotifications = some true)
    (hlife : apdu.lifetime = some 0)
    (hk : tableGet st.table
        (PyKey.str (devStr (getDevice st apdu.source))) = [s0])
    (hid : sameIdentity s0
        (buildSubscription st.obj (getDevice st apdu.source) now 0 apdu)
      = true) :
    (doSubscribeCOV st now apdu).outcome = .ok () ∧
    tableGet (doSubscribeCOV st now apdu).state.table
        (PyKey.str (devStr (getDevice st apdu.source)))
      = [buildSubscription st.obj (getDevice st apdu.source) now 0 apdu] ∧
    (buildSubscription st.obj (getDevice st apdu.source) now 0 apdu).expiry
      = now ∧
    (∀ t, now ≤ t →
      remainingTime
        (buildSubscription st.obj (getDevice st apdu.source) now 0 apdu).expiry
        t = 0) := by
  have hdev : (buildSubscription st.obj (getDevice st apdu.source) now 0
      apdu).recipient.recipient.device = getDevice st apdu.source := rfl
  have hcov : covSupported st.obj none = true := by
    simp [covSupported, hsup]
  have hren : renewCovSubscription st.table st.obj
        (buildSubscription st.obj (getDevice st apdu.source) now 0 apdu)
      = (tableSet st.table (PyKey.str (devStr (getDevice st apdu.source)))
          [buildSubscription st.obj (getDevice st apdu.source) now 0 apdu],
         objRenewCovSubscription st.obj
           (buildSubscription st.obj (getDevice st apdu.source) now 0 apdu),
         true) := by
    simp only [renewCovSubscription, hdev]
    rw [hk]
    simp [replaceFirstMatch, hid]
  have hrun : doSubscribeCOV st now apdu
      = ⟨{ st with
            table := tableSet st.table
              (PyKey.str (devStr (getDevice st apdu.source)))
              [buildSubscription st.obj (getDevice st apdu.source) now 0 apdu],
            obj := objRenewCovSubscription st.obj
              (buildSubscription st.obj (getDevice st apdu.source) now 0
                apdu) },
         .ok ()⟩ := by
    simp only [doSubscribeCOV, hobj, if_true, hprop]
    simp only [addCovSubscription, hcov, hprop, hconf, hlife]
    simp [hren]
  refine ⟨by rw [hrun], ?_, by simp [buildSubscription], ?_⟩
  · rw [hrun]
    exact tableGet_tableSet _ _ _
  · intro t ht
    simp only [buildSubscription, remainingTime]
    omega

/-- Witness for `subscribe_lifetime_zero_renews_expired` at the concrete
state `c4St` and time 1000. -/
theorem subscribe_lifetime_zero_renews_expired_witness :
    (doSubscribeCOV c4St 1000 c4WholeApdu).outcome = .ok () ∧
    tableGet (doSubscribeCOV c4St 1000 c4WholeApdu).state.table
        (PyKey.str (devStr (getDevice c4St c4WholeApdu.source)))
      = [buildSubscription c4St.obj (getDevice c4St c4WholeApdu.source) 1000 0
          c4WholeApdu] ∧
    (buildSubscription c4St.obj (getDevice c4St c4WholeApdu.source) 1000 0
        c4WholeApdu).expiry = 1000 ∧
    (∀ t, (1000 : Int) ≤ t →
      remainingTime
        (buildSubscription c4St.obj (getDevice c4St c4WholeApdu.source) 1000 0
          c4WholeApdu).expiry t = 0) :=
  subscribe_lifetime_zero_renews_expired c4St 1000 c4WholeApdu c4WholeSub
    rfl rfl rfl rfl rfl rfl rfl

/-- C6 counterexample: the claim says a notification is sent whenever the
absolute difference between the cached and the new value meets or exceeds
the increment.  With the increment set to 1 on **both** the subscription
and the object, a write from cached 10 to 20 (difference 10, far above
either increment) produces no notification: every disjunct of the change
condition requires the other increment to be falsy. -/
theorem checkCov_both_increments_no_notification :
    (checkCov [] c6BothObj 0 85 none (.num 20)).notified = [] ∧
    incTruthy c6BothSub.covIncrement = true ∧
    incTruthy c6BothObj.covIncrement = true ∧
    (1 : Int) ≤ |(10 : Int) - 20| ∧
    remainingTime c6BothSub.expiry 0 ≠ 0 :=
  ⟨rfl, rfl, rfl, by decide, by decide⟩

/-- C6 amended: for a live subscription on a numeric property with a
seeded cache, a notification fires on a change iff both increments are
falsy (unset or 0), or exactly one increment is set and the absolute
difference between the cached and new value reaches it; when both are set
no notification ever fires; non-numeric values notify on any change; the
cached value is updated exactly when a notification fires.  Concretely,
with cov-increment 2 and cached value 10, writing 11 yields no
notification and leaves the cache at 10, after which writing 13 yields
exactly one notification and a cache of 13. -/
theorem checkCov_threshold_gate :
    (∀ now objInc e c v, remainingTime e.subscription.expiry now ≠ 0 →
      e.value = some (.num c) →
      incTruthy e.subscription.covIncrement = false →
      incTruthy objInc = false → c ≠ v →
      checkCovEntry now objInc (.num v) e
        = ({ e with value := some (.num v) }, true, false)) ∧
    (∀ now objInc e c v i, remainingTime e.subscription.expiry now ≠ 0 →
      e.value = some (.num c) → e.subscription.covIncrement = some i →
      i ≠ 0 → incTruthy objInc = false → c ≠ v →
      checkCovEntry now objInc (.num v) e
        = if i ≤ |c - v| then ({ e with value := some (.num v) }, true, false)
          else (e, false, false)) ∧
    (∀ now e c v j, remainingTime e.subscription.expiry now ≠ 0 →
      e.value = some (.num c) →
      incTruthy e.subscription.covIncrement = false → j ≠ 0 → c ≠ v →
      checkCovEntry now (some j) (.num v) e
        = if j ≤ |c - v| then ({ e with value := some (.num v) }, true, false)
          else (e, false, false)) ∧
    (∀ now objInc e c v, remainingTime e.subscription.expiry now ≠ 0 →
      e.value = some (.num c) →
      incTruthy e.subscription.covIncrement = true →
      incTruthy objInc = true →
      checkCovEntry now objInc (.num v) e = (e, false, false)) ∧
    (∀ now objInc e sv, remainingTime e.subscription.expiry now ≠ 0 →
      e.value ≠ some (.other sv) →
      checkCovEntry now objInc (.other sv) e
        = ({ e with value := some (.other sv) }, true, false)) ∧
    ((checkCov [] c6Obj 0 85 none (.num 11)).notified = [] ∧
      (checkCov [] c6Obj 0 85 none (.num 11)).obj = c6Obj ∧
      (checkCov [] c6Obj 0 85 none (.num 13)).notified = [c6Sub] ∧
      (checkCov [] c6Obj 0 85 none (.num 13)).obj.cov_dict
        = [((85, none),
            [{ subscription := c6Sub, value := some (.num 13) }])]) := by
  refine ⟨?_, ?_, ?_, ?_, ?_, rfl, rfl, rfl, rfl⟩
  · intro now objInc e c v hlive hc hsub hobj hne
    simp [checkCovEntry, hlive, hc, covChange, hsub, hobj, hne]
  · intro now objInc e c v i hlive hc hsub hi hobj hne
    have hsubT : incTruthy (some i) = true := by simp [incTruthy, hi]
    have hdiff : absDiff (some (PyValue.num c)) (.num v) = |c - v| := by
      simp [absDiff]
    by_cases hle : i ≤ |c - v|
    · simp [checkCovEntry, hlive, hc, covChange, hsub, hsubT, hobj, pyLe,
        hdiff, hne, hle]
    · simp [checkCovEntry, hlive, hc, covChange, hsub, hsubT, hobj, pyLe,
        hdiff, hne, hle]
  · intro now e c v j hlive hc hsub hj hne
    have hobjT : incTruthy (some j) = true := by simp [incTruthy, hj]
    have hdiff : absDiff (some (PyValue.num c)) (.num v) = |c - v| := by
      simp [absDiff]
    by_cases hle : j ≤ |c - v|
    · simp [checkCovEntry, hlive, hc, covChange, hsub, hobjT, pyLe, hdiff,
        hne, hle]
    · simp [checkCovEntry, hlive, hc, covChange, hsub, hobjT, pyLe, hdiff,
        hne, hle]
  · intro now objInc e c v hlive hc hsub hobj
    by_cases hcv : c = v
    · subst hcv
      simp [checkCovEntry, hlive, hc]
    · simp [checkCovEntry, hlive, hc, covChange, hsub, hobj, hcv]
  · intro now objInc e sv hlive hne
    simp [checkCovEntry, hlive, covChange, hne]

/-- Witness for `checkCov_threshold_gate`: the subscription-increment
branch evaluated at increment 2, cached 10, new value 13. -/
theorem checkCov_threshold_gate_witness :
    remainingTime c6Sub.expiry 0 ≠ 0 ∧
    c6Sub.covIncrement = some 2 ∧
    checkCovEntry 0 none (.num 13)
        { subscription := c6Sub, value := some (.num 10) }
      = if (2 : Int) ≤ |(10 : Int) - 13| then
          ({ subscription := c6Sub, value := some (.num 13) }, true, false)
        else ({ subscription := c6Sub, value := some (.num 10) }, false,
          false) :=
  ⟨by decide, rfl,
   checkCov_threshold_gate.2.1 0 none
     { subscription := c6Sub, value := some (.num 10) } 10 13 2
     (by decide) rfl rfl (by decide) rfl (by decide)⟩

/-- C8: reading the table 2 seconds after a lifetime-1 subscription was
created excludes it from the returned list and sends no notification for a
later property change (the expired entry goes to the removables, not the
notify path) — these parts of the claim hold.  The claimed deletion from
the table does not happen: the sweep's `delete_cov_subscriptions` looks the
device list up under the raw device identifier (`PyKey.dev`) while the
table is keyed by the string form (`PyKey.str`), so the returned table
still contains the expired subscription; only the object's per-property
index is emptied. -/
theorem expired_subscription_sweep_misses_table :
    activeCovSubscriptionsRead c8Table c8Obj 2
      = .ok ([], c8Table, { c8Obj with cov_dict := [] }) ∧
    (checkCov c8Table c8Obj 2 85 none (.num 99)).notified = [] ∧
    (checkCov c8Table c8Obj 2 85 none (.num 99)).table = c8Table ∧
    remainingTime c8Sub.expiry 2 = 0 ∧
    tableGet c8Table (PyKey.dev (some 7)) = [] ∧
    tableGet c8Table (PyKey.str "7") = [c8Sub] :=
  ⟨rfl, rfl, rfl, rfl, rfl, rfl⟩

end Bacnet
